import Mathlib

/-
  Verification of the real-time analytics engine (src/realtime_analytics.py).

  The Python module is shallowly embedded below.  Python dicts become
  association lists, datetimes become integer timestamps (seconds), and the
  numpy / pandas arithmetic is carried out over the rationals.  Every
  definition is executable so that concrete runs can be checked by `decide`.
-/

namespace RealtimeAnalytics

/-- A value stored in an event record.  The records handled by the module
carry strings (identifiers, event types) and numbers (amounts, metric
values); numbers are modelled as rationals. -/
inductive Val where
  | str (s : String)
  | num (q : ℚ)
deriving DecidableEq

/-- An event record: a flat key-to-value mapping (a Python dict), modelled as
an association list looked up first-match. -/
abbrev Record := List (String × Val)

/-- Embeds both dict lookups used by the source: membership testing
(isSome of the result) and record.get. -/
def record_get (r : Record) (k : String) : Option Val :=
  (r.find? (fun p => p.1 == k)).map Prod.snd

/-- The metrics dict initialised in RealTimeDataStream.__init__ :
total_records, processed_records, error_count, last_update (a timestamp,
initially None) and processing_rate (initialised to 0 and never written
again by the module). -/
structure StreamMetrics where
  total_records : Nat
  processed_records : Nat
  error_count : Nat
  last_update : Option Int
  processing_rate : ℚ
deriving DecidableEq

/-- The metrics dict as built by __init__. -/
def initMetrics : StreamMetrics :=
  { total_records := 0, processed_records := 0, error_count := 0,
    last_update := none, processing_rate := 0 }

/-- State of a RealTimeDataStream: the configuration fields actually read by
the methods (required_fields, max_queue_size), the bounded queue.Queue
(as the list of queued records, oldest first), the running flag and the
metrics dict.  The callback list is passed separately to process_record so
that the state stays decidable. -/
structure RealTimeDataStream where
  required_fields : List String
  max_queue_size : Nat
  data_queue : List Record
  is_running : Bool
  metrics : StreamMetrics
deriving DecidableEq

/-- A freshly constructed stream for a given configuration. -/
def initStream (required : List String) (maxQ : Nat) : RealTimeDataStream :=
  { required_fields := required, max_queue_size := maxQ, data_queue := [],
    is_running := false, metrics := initMetrics }

/-- RealTimeDataStream._validate_record: all configured required fields are
keys of the record. -/
def validate_record (s : RealTimeDataStream) (r : Record) : Bool :=
  s.required_fields.all (fun f => (record_get r f).isSome)

/-- A tracker callback.  Its effect on tracker state is modelled separately
(see the tracker modules below); here only its control behaviour matters:
it either returns or raises an exception (carried as a message). -/
abbrev Callback := Record → Except String Unit

/-- Whether queue.Queue.put can complete immediately: in CPython a maxsize
of 0 means an unbounded queue, otherwise put blocks (with the default
arguments used by the source) while qsize is at least maxsize. -/
def put_ok (maxQ : Nat) (qlen : Nat) : Bool :=
  maxQ == 0 || qlen < maxQ

instance : DecidableEq (Except String Unit) := fun a b =>
  match a, b with
  | Except.ok _, Except.ok _ => isTrue rfl
  | Except.error x, Except.error y =>
      if h : x = y then isTrue (by rw [h]) else isFalse (fun he => h (by injection he))
  | Except.ok _, Except.error _ => isFalse (fun he => by injection he)
  | Except.error _, Except.ok _ => isFalse (fun he => by injection he)

/-- Outcome of one process_record call.  The Python function body contains
no return statement, so every completed call returns None; the ret
component records the returned value (none = Python None) to make that
observable.  blocked is the state reached when the call is stuck inside the
blocking queue.Queue.put on a full queue: total_records has already been
incremented, nothing else has happened, and the call has not returned. -/
inductive ProcResult where
  | done (s : RealTimeDataStream) (cbResults : List (Except String Unit)) (ret : Option Bool)
  | blocked (s : RealTimeDataStream)
deriving DecidableEq

/-- The callback fan-out loop of process_record: each callback is invoked in
registration order inside its own try/except, so a raising callback is
logged and the loop continues with the next one. -/
def run_callbacks (cbs : List Callback) (r : Record) : List (Except String Unit) :=
  cbs.map (fun cb => cb r)

/-- RealTimeDataStream.process_record.  Order of effects, as in the source:
increment total_records; validate; on success put the record on the queue
(blocking if the queue is full), increment processed_records, then fan out
to the callbacks; on validation failure increment error_count.  The outer
exception handler of the source (which would add an error_count increment)
is unreachable here because none of the embedded operations raises: the
enqueue blocks rather than raising and callback errors are caught by the
inner handler. -/
def process_record (cbs : List Callback) (s : RealTimeDataStream) (r : Record) :
    ProcResult :=
  let s1 : RealTimeDataStream :=
    { s with metrics := { s.metrics with total_records := s.metrics.total_records + 1 } }
  if validate_record s r then
    if put_ok s1.max_queue_size s1.data_queue.length then
      ProcResult.done
        { s1 with
            data_queue := s1.data_queue ++ [r],
            metrics := { s1.metrics with
                          processed_records := s1.metrics.processed_records + 1 } }
        (run_callbacks cbs r) none
    else
      ProcResult.blocked s1
  else
    ProcResult.done
      { s1 with metrics := { s1.metrics with error_count := s1.metrics.error_count + 1 } }
      [] none

/-- RealTimeDataStream.get_metrics operating on the metrics dict: it first
writes datetime.now() into last_update of the stored dict, then returns a
copy.  The first component is the stored dict after the call, the second is
the returned copy. -/
def get_metrics (m : StreamMetrics) (now : Int) : StreamMetrics × StreamMetrics :=
  let m2 := { m with last_update := some now }
  (m2, m2)

/-! ### Anomaly detector (RealTimeAnomalyDetector) -/

/-- RealTimeAnomalyDetector.__init__ hardcodes max_history_size = 1000. -/
def max_history_size : Nat := 1000

/-- RealTimeAnomalyDetector.__init__ hardcodes anomaly_threshold = 3.0. -/
def anomaly_threshold : ℚ := 3

/-- Detector state: the rolling list of observed value fields.  The source
appends whatever non-None value the record carries, so the history holds
raw record values. -/
structure RealTimeAnomalyDetector where
  value_history : List Val
deriving DecidableEq

/-- A fresh detector. -/
def initDetector : RealTimeAnomalyDetector := { value_history := [] }

/-- Python slice l[-k:]: the last k elements.  (For k = 0 Python returns the
whole list, not the empty one; the source only slices with k = 1000.) -/
def sliceLast (l : List Val) (k : Nat) : List Val :=
  if k = 0 then l else l.drop (l.length - k)

/-- RealTimeAnomalyDetector.process_record: append the value field when
present, then truncate the history to its last max_history_size elements
when it exceeds the cap. -/
def det_process_record (d : RealTimeAnomalyDetector) (r : Record) :
    RealTimeAnomalyDetector :=
  match record_get r "value" with
  | none => d
  | some v =>
    let h := d.value_history ++ [v]
    if max_history_size < h.length then
      { value_history := sliceLast h max_history_size }
    else
      { value_history := h }

/-- The list of value observations a record contributes (empty or a
singleton). -/
def observed_value (r : Record) : List Val := (record_get r "value").toList

/-- Reading a record value as a number; a string where numpy or pandas
expects a number makes the numeric code raise, modelled as none below. -/
def toNum : Val → Option ℚ
  | Val.num q => some q
  | Val.str _ => none

/-- All values of a list read as numbers; none when any entry is
non-numeric (numpy raises on such data). -/
def allNums (l : List Val) : Option (List ℚ) := l.mapM toNum

/-- np.mean over the rationals (0 for the empty list, as 0 / 0 = 0;
the source never takes the mean of an empty history). -/
def npMean (l : List ℚ) : ℚ := l.sum / l.length

/-- The population variance, the square of np.std (numpy uses ddof = 0). -/
def npVar (l : List ℚ) : ℚ := (l.map (fun x => (x - npMean l) ^ 2)).sum / l.length

/-- One entry of the list returned by detect_anomalies: index, value and the
squared z-score.  The z-score itself is the square root of zsq, which is
irrational in general, so the squared form is recorded; the timestamp field
of the source entry (datetime.now()) carries no information about the data
and is omitted. -/
structure AnomalyRec where
  index : Nat
  value : ℚ
  zsq : ℚ
deriving DecidableEq

/-- The numeric core of detect_anomalies: with std = 0 (equivalently
variance = 0) return empty; otherwise flag the samples whose |z| is
strictly above the threshold.  Because the threshold 3 is nonnegative,
|z| > t is equivalent to z ^ 2 > t ^ 2, which avoids the square root. -/
def detect_on (qs : List ℚ) : List AnomalyRec :=
  let μ := npMean qs
  let v := npVar qs
  if v = 0 then []
  else
    (qs.enum.filter (fun p => anomaly_threshold ^ 2 * v < (p.2 - μ) ^ 2)).map
      (fun p => { index := p.1, value := p.2, zsq := (p.2 - μ) ^ 2 / v })

/-- RealTimeAnomalyDetector.detect_anomalies in exact arithmetic: return
empty below 10 samples, otherwise run the numeric scan.  The result is
none when the history contains a non-numeric value, on which np.mean
raises. -/
def detect_anomalies (d : RealTimeAnomalyDetector) : Option (List AnomalyRec) :=
  if d.value_history.length < 10 then some []
  else
    match allNums d.value_history with
    | none => none
    | some qs => some (detect_on qs)

/-! ### Batch aggregation (RealTimeAnalytics._analyze_batch and helpers) -/

/-- The slice of the real_time_metrics dict written by the batch path:
each field is none while its key has not been written yet.  (The timestamp
companions of the source carry no data and are omitted.) -/
structure BatchMetrics where
  active_users : Option Nat
  purchases_last_interval : Option Nat
  anomalies_detected : Option Nat
  records_processed : Option Nat
deriving DecidableEq

/-- The metrics map before any batch has been analyzed. -/
def initBatchMetrics : BatchMetrics :=
  { active_users := none, purchases_last_interval := none,
    anomalies_detected := none, records_processed := none }

/-- Whether the DataFrame built from the batch has a given column: pandas
takes the union of the dict keys. -/
def has_column (batch : List Record) (k : String) : Bool :=
  batch.any (fun r => (record_get r k).isSome)

/-- The non-null entries of a DataFrame column (records missing the key
give NaN, which nunique and dropna discard). -/
def column_values (batch : List Record) (k : String) : List Val :=
  batch.filterMap (fun r => record_get r k)

/-- RealTimeAnalytics._update_user_activity: when the batch has a user_id
column, publish the number of distinct users. -/
def update_user_activity (batch : List Record) (m : BatchMetrics) : BatchMetrics :=
  if has_column batch "user_id" then
    { m with active_users := some (column_values batch "user_id").dedup.length }
  else m

/-- RealTimeAnalytics._detect_purchase_patterns: when the batch has an
event_type column and at least one purchase row, publish the purchase
count. -/
def detect_purchase_patterns (batch : List Record) (m : BatchMetrics) : BatchMetrics :=
  if has_column batch "event_type" then
    let pe := batch.filter (fun r => record_get r "event_type" == some (Val.str "purchase"))
    if pe.isEmpty then m else { m with purchases_last_interval := some pe.length }
  else m

/-- The sample variance, the square of the pandas Series.std() (ddof = 1)
used by the batch anomaly check. -/
def pdVar (l : List ℚ) : ℚ :=
  (l.map (fun x => (x - npMean l) ^ 2)).sum / ((l.length : ℚ) - 1)

/-- RealTimeAnalytics._check_for_anomalies: when the batch has a value
column, drop the NaN entries and, strictly above 10 samples, count the
values farther than 3 sample standard deviations from the mean (the bound
is hardcoded in the source, squared here).  A non-numeric value column
makes pandas raise, modelled as none; the exception is caught by
_analyze_batch. -/
def check_for_anomalies (batch : List Record) (m : BatchMetrics) :
    Option BatchMetrics :=
  if has_column batch "value" then
    match allNums (column_values batch "value") with
    | none => none
    | some vs =>
      if 10 < vs.length then
        let μ := npMean vs
        let v := pdVar vs
        let anoms := vs.filter (fun x => 9 * v < (x - μ) ^ 2)
        if anoms.isEmpty then some m
        else some { m with anomalies_detected := some anoms.length }
      else some m
  else some m

/-- RealTimeAnalytics._update_performance_metrics: publish the batch
size. -/
def update_performance_metrics (batch : List Record) (m : BatchMetrics) :
    BatchMetrics :=
  { m with records_processed := some batch.length }

/-- RealTimeAnalytics._analyze_batch: the four update steps in order, inside
one try/except, so when the anomaly check raises the user-activity and
purchase updates already performed persist and the performance update is
skipped. -/
def analyze_batch (batch : List Record) (m : BatchMetrics) : BatchMetrics :=
  let m1 := update_user_activity batch m
  let m2 := detect_purchase_patterns batch m1
  match check_for_anomalies batch m2 with
  | none => m2
  | some m3 => update_performance_metrics batch m3

/-- RealTimeAnalytics._process_batch_data: drain up to batch_size records
from the queue (get_nowait pops oldest first) and analyze them when the
batch is non-empty.  Returns the remaining queue and the updated metrics
map. -/
def process_batch_data (batchSize : Nat) (q : List Record) (m : BatchMetrics) :
    List Record × BatchMetrics :=
  (q.drop batchSize,
   if (q.take batchSize).isEmpty then m else analyze_batch (q.take batchSize) m)

/-- The stream state after one process_record call (dropping the result
observation; a blocked call is frozen at its partial state). -/
def step_state (cbs : List Callback) (s : RealTimeDataStream) (r : Record) :
    RealTimeDataStream :=
  match process_record cbs s r with
  | ProcResult.done s2 _ _ => s2
  | ProcResult.blocked s2 => s2

/-- Feeding a list of records through process_record in order. -/
def feed (cbs : List Callback) (s : RealTimeDataStream) (rs : List Record) :
    RealTimeDataStream :=
  rs.foldl (step_state cbs) s

/-! ### Purchase tracker (PurchaseTracker) -/

/-- One entry of PurchaseTracker.purchase_data: the dict appended by
process_record.  user_id and product_id come from record.get with no
default (None when absent); amount comes from record.get with default 0. -/
structure PurchaseEntry where
  timestamp : Int
  user_id : Option Val
  amount : Val
  product_id : Option Val
deriving DecidableEq

/-- PurchaseTracker state: the append-only purchase list and the
hour-bucketed revenue dict. -/
structure PurchaseTracker where
  purchase_data : List PurchaseEntry
  revenue_tracker : List (Int × ℚ)
deriving DecidableEq

/-- A fresh tracker. -/
def initPurchaseTracker : PurchaseTracker :=
  { purchase_data := [], revenue_tracker := [] }

/-- Lookup in the revenue dict. -/
def rt_lookup (l : List (Int × ℚ)) (k : Int) : Option ℚ :=
  (l.find? (fun p => p.1 == k)).map Prod.snd

/-- Write a key of the revenue dict (overwrite or append). -/
def rt_insert (l : List (Int × ℚ)) (k : Int) (v : ℚ) : List (Int × ℚ) :=
  match l with
  | [] => [(k, v)]
  | p :: ps => if p.1 == k then (k, v) :: ps else p :: rt_insert ps k v

/-- The guard of PurchaseTracker.process_record that creates a missing
revenue bucket with value 0 before the addition. -/
def rt_or_init (l : List (Int × ℚ)) (k : Int) : List (Int × ℚ) :=
  match rt_lookup l k with
  | some _ => l
  | none => rt_insert l k 0

/-- datetime.now().replace(minute=0, second=0, microsecond=0) on integer
second timestamps: truncation to the hour. -/
def hour_bucket (t : Int) : Int := 3600 * (t / 3600)

/-- PurchaseTracker.process_record at wall-clock time now.  For a purchase
event: append the entry, create the revenue bucket of the current hour if
absent, then add the amount into it.  A non-numeric amount makes the
addition raise after the entry was appended and the bucket created; the
Bool flags that raise (the exception would propagate to the per-callback
handler of the stream). -/
def pt_process_record (t : PurchaseTracker) (now : Int) (r : Record) :
    PurchaseTracker × Bool :=
  if record_get r "event_type" == some (Val.str "purchase") then
    let entry : PurchaseEntry :=
      { timestamp := now,
        user_id := record_get r "user_id",
        amount := (record_get r "amount").getD (Val.num 0),
        product_id := record_get r "product_id" }
    let t1 : PurchaseTracker := { t with purchase_data := t.purchase_data ++ [entry] }
    let hour := hour_bucket now
    let t2 : PurchaseTracker :=
      { t1 with revenue_tracker := rt_or_init t1.revenue_tracker hour }
    match entry.amount with
    | Val.num q =>
        let cur : ℚ := (rt_lookup t2.revenue_tracker hour).getD 0
        ({ t2 with revenue_tracker := rt_insert t2.revenue_tracker hour (cur + q) }, false)
    | Val.str _ => (t2, true)
  else (t, false)

/-- PurchaseTracker.get_recent_purchases at time now: the purchases whose
timestamp is strictly newer than now minus the window. -/
def get_recent_purchases (t : PurchaseTracker) (now : Int) (minutes : Int) :
    List PurchaseEntry :=
  t.purchase_data.filter (fun p => decide (now - 60 * minutes < p.timestamp))

/-- sum(p['amount'] for p in recent): none when some amount is a string, on
which the addition raises. -/
def sum_amounts : List PurchaseEntry → Option ℚ
  | [] => some 0
  | p :: ps =>
    match toNum p.amount, sum_amounts ps with
    | some a, some s => some (a + s)
    | _, _ => none

/-- The dict returned by PurchaseTracker.get_revenue_stats. -/
structure RevenueStats where
  revenue_1hour : ℚ
  purchase_count_1hour : Nat
  avg_purchase_value : ℚ
deriving DecidableEq

/-- PurchaseTracker.get_revenue_stats at time now: all-zero stats when no
purchase falls in the trailing hour, otherwise total, count and mean of the
recent amounts (none when summing raises on a non-numeric amount). -/
def get_revenue_stats (t : PurchaseTracker) (now : Int) : Option RevenueStats :=
  let recent := get_recent_purchases t now 60
  if recent.isEmpty then
    some { revenue_1hour := 0, purchase_count_1hour := 0, avg_purchase_value := 0 }
  else
    match sum_amounts recent with
    | none => none
    | some total =>
        some { revenue_1hour := total, purchase_count_1hour := recent.length,
               avg_purchase_value := total / (recent.length : ℚ) }

/-! ### Concrete fixtures used by the witnesses and counterexamples -/

/-- A record carrying the three default required fields. -/
def rv : Record :=
  [("user_id", Val.str "u1"), ("event_type", Val.str "view"), ("timestamp", Val.num 1)]

/-- A record missing the required user_id field. -/
def rinv : Record := [("event_type", Val.str "view"), ("timestamp", Val.num 2)]

/-- A fresh stream configured with the default required fields and a
capacity of 2. -/
def s0 : RealTimeDataStream := initStream ["user_id", "event_type", "timestamp"] 2

/-- The same stream with its queue at capacity. -/
def sFull : RealTimeDataStream := { s0 with data_queue := [rv, rv] }

/-- A callback that raises. -/
def cbBoom : Callback := fun _ => Except.error "boom"

/-- A callback that returns normally. -/
def cbOk : Callback := fun _ => Except.ok ()

/-- The five purchase records of the end-to-end scenario: amounts
10, 20, 30, 5000, 15 for the three users u1, u2, u3. -/
def purchase_batch : List Record :=
  [[("user_id", Val.str "u1"), ("event_type", Val.str "purchase"),
    ("timestamp", Val.num 1), ("amount", Val.num 10)],
   [("user_id", Val.str "u2"), ("event_type", Val.str "purchase"),
    ("timestamp", Val.num 2), ("amount", Val.num 20)],
   [("user_id", Val.str "u3"), ("event_type", Val.str "purchase"),
    ("timestamp", Val.num 3), ("amount", Val.num 30)],
   [("user_id", Val.str "u1"), ("event_type", Val.str "purchase"),
    ("timestamp", Val.num 4), ("amount", Val.num 5000)],
   [("user_id", Val.str "u2"), ("event_type", Val.str "purchase"),
    ("timestamp", Val.num 5), ("amount", Val.num 15)]]

/-- The engine stream of the end-to-end scenario (default configuration:
capacity 1000). -/
def s5 : RealTimeDataStream := initStream ["user_id", "event_type", "timestamp"] 1000

/-- A purchase record with no amount field. -/
def rp : Record := [("event_type", Val.str "purchase"), ("user_id", Val.str "u9")]

/-- A detector holding one observation. -/
def d1 : RealTimeAnomalyDetector := { value_history := [Val.num 1] }

/-- A record carrying a numeric value field. -/
def rvv : Record := [("value", Val.num 2)]

/-- A detector holding ten equal observations (a constant series). -/
def d10 : RealTimeAnomalyDetector :=
  { value_history := [Val.num 7, Val.num 7, Val.num 7, Val.num 7, Val.num 7,
                      Val.num 7, Val.num 7, Val.num 7, Val.num 7, Val.num 7] }

/-- The history of the knife-edge scenario: nine ones and a single 100. -/
def knife_hist : List Val :=
  [Val.num 1, Val.num 1, Val.num 1, Val.num 1, Val.num 1, Val.num 1, Val.num 1,
   Val.num 1, Val.num 1, Val.num 100]

/-- The detector holding the knife-edge history. -/
def dknife : RealTimeAnomalyDetector := { value_history := knife_hist }

/-! ### Claim theorems -/

/-- C1, counterexample.  The claim says process_record returns true on a
valid record and false on an invalid one.  The Python function body has no
return statement, so every completed call returns None: at the concrete
valid record rv and the concrete invalid record rinv the returned value is
none, not some true and not some false.  Moreover a valid record submitted
to a full queue does not complete at all (the blocking enqueue), so the
processed_records increment claimed for every valid record also fails
there. -/
theorem c1_counterexample :
    process_record [] s0 rv =
      ProcResult.done
        { s0 with data_queue := [rv],
                  metrics := { initMetrics with total_records := 1, processed_records := 1 } }
        [] none ∧
    (none : Option Bool) ≠ some true ∧
    process_record [] s0 rinv =
      ProcResult.done
        { s0 with metrics := { initMetrics with total_records := 1, error_count := 1 } }
        [] none ∧
    (none : Option Bool) ≠ some false ∧
    process_record [] sFull rv =
      ProcResult.blocked { sFull with metrics := { initMetrics with total_records := 1 } } := by
  refine ⟨by decide, by decide, by decide, by decide, by decide⟩

/-- C1, amended: a valid record, when the queue has free space, makes
process_record return normally (with Python None, there being no return
statement), increment total_records and processed_records by one each,
append the record to the queue and fan out to every callback; a record
missing a required field makes it return None, increment total_records and
error_count by one each, leave the queue unchanged and invoke no
callback. -/
theorem c1_process_record_amended (cbs : List Callback) (s : RealTimeDataStream)
    (r : Record) :
    (validate_record s r = true →
      put_ok s.max_queue_size s.data_queue.length = true →
      process_record cbs s r =
        ProcResult.done
          { s with
              data_queue := s.data_queue ++ [r],
              metrics := { s.metrics with
                            total_records := s.metrics.total_records + 1,
                            processed_records := s.metrics.processed_records + 1 } }
          (cbs.map (fun cb => cb r)) none) ∧
    (validate_record s r = false →
      process_record cbs s r =
        ProcResult.done
          { s with
              metrics := { s.metrics with
                            total_records := s.metrics.total_records + 1,
                            error_count := s.metrics.error_count + 1 } }
          [] none) := by
  constructor
  · intro hv hq
    simp [process_record, run_callbacks, hv, hq]
  · intro hv
    simp [process_record, hv]

/-- C1, witness: the amended theorem applied to the fresh stream s0, the
valid record rv and the invalid record rinv. -/
theorem c1_process_record_amended_witness :
    process_record [] s0 rv =
      ProcResult.done
        { s0 with
            data_queue := s0.data_queue ++ [rv],
            metrics := { s0.metrics with
                          total_records := s0.metrics.total_records + 1,
                          processed_records := s0.metrics.processed_records + 1 } }
        (([] : List Callback).map (fun cb => cb rv)) none ∧
    process_record [] s0 rinv =
      ProcResult.done
        { s0 with
            metrics := { s0.metrics with
                          total_records := s0.metrics.total_records + 1,
                          error_count := s0.metrics.error_count + 1 } }
        [] none :=
  ⟨(c1_process_record_amended [] s0 rv).1 (by decide) (by decide),
   (c1_process_record_amended [] s0 rinv).2 (by decide)⟩

/-- C2, counterexample.  The claim says a valid record submitted to a full
queue makes process_record fail fast: return false, without blocking, with
an error_count increment.  In the source the enqueue is
self.data_queue.put(record), a queue.Queue.put with the default blocking
arguments, so at the concrete full stream sFull the call blocks inside put
after incrementing total_records: it does not return any value and
error_count stays 0. -/
theorem c2_counterexample :
    process_record [] sFull rv =
      ProcResult.blocked { sFull with metrics := { initMetrics with total_records := 1 } } ∧
    ({ initMetrics with total_records := 1 } : StreamMetrics).error_count =
      sFull.metrics.error_count := by
  refine ⟨by decide, by decide⟩

/-- C2, amended: a valid record submitted while the bounded queue already
holds max_queue_size records leaves process_record blocked inside the
blocking queue.Queue.put: the call does not return (so no boolean is
produced), total_records has been incremented, error_count and the queue
are unchanged and no tracker callback is invoked. -/
theorem c2_blocking_put_amended (cbs : List Callback) (s : RealTimeDataStream)
    (r : Record) (hv : validate_record s r = true) (hpos : 0 < s.max_queue_size)
    (hfull : s.max_queue_size ≤ s.data_queue.length) :
    process_record cbs s r =
      ProcResult.blocked
        { s with metrics := { s.metrics with
                               total_records := s.metrics.total_records + 1 } } := by
  have hq : put_ok s.max_queue_size s.data_queue.length = false := by
    simp only [put_ok, Bool.or_eq_false_iff, beq_eq_false_iff_ne, ne_eq,
      decide_eq_false_iff_not, not_lt]
    omega
  simp [process_record, hv, hq]

/-- C2, witness: the amended theorem applied to the full stream sFull and
the valid record rv. -/
theorem c2_blocking_put_amended_witness :
    process_record [] sFull rv =
      ProcResult.blocked
        { sFull with metrics := { sFull.metrics with
                                   total_records := sFull.metrics.total_records + 1 } } :=
  c2_blocking_put_amended [] sFull rv (by decide) (by decide) (by decide)

/-- C6, counterexample.  The claim says get_metrics leaves the Stream
Metrics themselves unchanged and that no read accessor mutates them.  The
source writes datetime.now() into last_update of the stored dict before
copying, so at the fresh metrics dict (last_update None) a get_metrics call
at time 5 changes the stored dict. -/
theorem c6_counterexample :
    (get_metrics initMetrics 5).1 ≠ initMetrics ∧
    (get_metrics initMetrics 5).1.last_update = some 5 ∧
    initMetrics.last_update = none := by
  refine ⟨by decide, by decide, by decide⟩

/-- C6, amended: get_metrics returns a snapshot copy that is value-equal to
the stored metrics dict at return time; before copying it writes the
current time into the stored last_update (so the read accessor does mutate
that field), while the counters total_records, processed_records,
error_count and processing_rate are left unchanged and are written only by
the ingestion path. -/
theorem c6_get_metrics_amended (m : StreamMetrics) (now : Int) :
    (get_metrics m now).2 = (get_metrics m now).1 ∧
    (get_metrics m now).1.total_records = m.total_records ∧
    (get_metrics m now).1.processed_records = m.processed_records ∧
    (get_metrics m now).1.error_count = m.error_count ∧
    (get_metrics m now).1.processing_rate = m.processing_rate ∧
    (get_metrics m now).1.last_update = some now :=
  ⟨rfl, rfl, rfl, rfl, rfl, rfl⟩

/-- C7: on an accepted record, a callback that raises during the fan-out is
caught by the per-callback handler, so every registered callback still runs
in registration order (the result list is the full map over the callback
list), the enclosing process_record call completes normally and neither
error_count nor the rest of the accepted-record bookkeeping is
disturbed. -/
theorem c7_callback_isolation (cbs : List Callback) (s : RealTimeDataStream)
    (r : Record) (i : Nat) (hi : i < cbs.length) (e : String)
    (_hraise : cbs.get ⟨i, hi⟩ r = Except.error e)
    (hv : validate_record s r = true)
    (hq : put_ok s.max_queue_size s.data_queue.length = true) :
    process_record cbs s r =
      ProcResult.done
        { s with
            data_queue := s.data_queue ++ [r],
            metrics := { s.metrics with
                          total_records := s.metrics.total_records + 1,
                          processed_records := s.metrics.processed_records + 1 } }
        (cbs.map (fun cb => cb r)) none ∧
    ({ s.metrics with
        total_records := s.metrics.total_records + 1,
        processed_records := s.metrics.processed_records + 1 } : StreamMetrics).error_count
      = s.metrics.error_count ∧
    (cbs.map (fun cb => cb r)).length = cbs.length := by
  refine ⟨?_, rfl, by simp⟩
  simp [process_record, run_callbacks, hv, hq]

/-- C7, witness: a two-callback registry whose first callback raises; both
callbacks run on the record rv and the call completes with unchanged
error_count. -/
theorem c7_callback_isolation_witness :
    process_record [cbBoom, cbOk] s0 rv =
      ProcResult.done
        { s0 with
            data_queue := s0.data_queue ++ [rv],
            metrics := { s0.metrics with
                          total_records := s0.metrics.total_records + 1,
                          processed_records := s0.metrics.processed_records + 1 } }
        ([cbBoom, cbOk].map (fun cb => cb rv)) none ∧
    ({ s0.metrics with
        total_records := s0.metrics.total_records + 1,
        processed_records := s0.metrics.processed_records + 1 } : StreamMetrics).error_count
      = s0.metrics.error_count ∧
    ([cbBoom, cbOk].map (fun cb => cb rv)).length = [cbBoom, cbOk].length :=
  c7_callback_isolation [cbBoom, cbOk] s0 rv 0 (by decide) "boom" rfl
    (by decide) (by decide)

/-- The implicit counter invariant of the stream metrics. -/
def metrics_invariant (m : StreamMetrics) : Prop :=
  m.total_records = m.processed_records + m.error_count

/-- C9: total_records = processed_records + error_count holds for the
freshly initialised metrics and is preserved by every completed
process_record call, for any record.  (A call blocked inside the full-queue
enqueue has not completed: while it waits, total_records is one ahead of
the sum, and the balance is restored by the processed_records increment
the moment the put returns.) -/
theorem c9_counter_invariant :
    metrics_invariant initMetrics ∧
    ∀ (cbs : List Callback) (s : RealTimeDataStream) (r : Record)
      (s2 : RealTimeDataStream) (outs : List (Except String Unit)) (ret : Option Bool),
      metrics_invariant s.metrics →
      process_record cbs s r = ProcResult.done s2 outs ret →
      metrics_invariant s2.metrics := by
  constructor
  · rfl
  · intro cbs s r s2 outs ret hinv heq
    by_cases hv : validate_record s r = true
    · by_cases hq : put_ok s.max_queue_size s.data_queue.length = true
      · simp [process_record, hv, hq] at heq
        obtain ⟨h1, h2, h3⟩ := heq
        subst h1
        simp only [metrics_invariant] at hinv ⊢
        show s.metrics.total_records + 1 = s.metrics.processed_records + 1 + s.metrics.error_count
        omega
      · simp [process_record, hv, hq] at heq
    · simp [process_record, hv] at heq
      obtain ⟨h1, h2, h3⟩ := heq
      subst h1
      simp only [metrics_invariant] at hinv ⊢
      show s.metrics.total_records + 1 = s.metrics.processed_records + (s.metrics.error_count + 1)
      omega

/-- C9, witness: the invariant after a completed call on the fresh stream,
obtained by applying the invariant theorem to the concrete run of
c1_counterexample shape. -/
theorem c9_counter_invariant_witness :
    metrics_invariant
      ({ s0 with data_queue := [rv], metrics := { initMetrics with total_records := 1, processed_records := 1 } } : RealTimeDataStream).metrics :=
  c9_counter_invariant.2 [] s0 rv _ [] none rfl (by decide)

/-- C8: the value history is a capped rolling buffer.  Starting from any
state within the cap, one process_record call keeps the length within
max_history_size, and the retained history is exactly the suffix of the
arrival stream (old history plus the newly observed value, if any) holding
its most recent max_history_size elements in arrival order. -/
theorem c8_capped_rolling_history (d : RealTimeAnomalyDetector) (r : Record)
    (hlen : d.value_history.length ≤ max_history_size) :
    (det_process_record d r).value_history.length ≤ max_history_size ∧
    (det_process_record d r).value_history =
      (d.value_history ++ observed_value r).drop
        ((d.value_history ++ observed_value r).length - max_history_size) := by
  rcases hv : record_get r "value" with _ | v
  · refine ⟨?_, ?_⟩
    · simpa [det_process_record, hv] using hlen
    · simp [det_process_record, observed_value, hv, Option.toList,
        Nat.sub_eq_zero_of_le hlen]
  · refine ⟨?_, ?_⟩
    · simp only [det_process_record, hv]
      split_ifs with hgt
      · simp only [sliceLast]
        rw [if_neg (by decide : ¬ (max_history_size = 0))]
        simp only [List.length_drop]
        omega
      · simp only [not_lt, List.length_append, List.length_cons, List.length_nil] at hgt ⊢
        omega
    · simp only [det_process_record, observed_value, hv, Option.toList]
      split_ifs with hgt
      · simp only [sliceLast]
        rw [if_neg (by decide : ¬ (max_history_size = 0))]
      · rw [Nat.sub_eq_zero_of_le (Nat.le_of_not_lt hgt), List.drop_zero]

/-- C8, witness: the capped-buffer theorem applied to the one-element
detector d1 and the record rvv carrying value 2. -/
theorem c8_capped_rolling_history_witness :
    (det_process_record d1 rvv).value_history.length ≤ max_history_size ∧
    (det_process_record d1 rvv).value_history =
      (d1.value_history ++ observed_value rvv).drop
        ((d1.value_history ++ observed_value rvv).length - max_history_size) :=
  c8_capped_rolling_history d1 rvv (by decide)

/-- C4: detect_anomalies returns the empty list for every detector state
with fewer than 10 observations, and for every state whose (numeric)
history has population variance 0 — equivalently population standard
deviation 0, the constant-value series. -/
theorem c4_detect_anomalies_empty (d : RealTimeAnomalyDetector)
    (h : d.value_history.length < 10 ∨
         ∃ qs, allNums d.value_history = some qs ∧ npVar qs = 0) :
    detect_anomalies d = some [] := by
  rcases h with h | ⟨qs, hqs, hv⟩
  · simp [detect_anomalies, h]
  · by_cases hshort : d.value_history.length < 10
    · simp [detect_anomalies, hshort]
    · simp [detect_anomalies, detect_on, hshort, hqs, hv]

/-- C4, witness: the theorem applied to the constant ten-observation
detector d10 through its variance-zero branch. -/
theorem c4_detect_anomalies_empty_witness : detect_anomalies d10 = some [] :=
  c4_detect_anomalies_empty d10
    (Or.inr ⟨[7, 7, 7, 7, 7, 7, 7, 7, 7, 7], rfl, by norm_num [npVar, npMean]⟩)

/-- Knife edge behind the spec scenario of the history
[1,1,1,1,1,1,1,1,1,100]: in exact arithmetic the variance is nonzero and
the squared deviation of 100 from the mean is exactly the squared threshold
(the z-score of 100 is exactly 3.0), so the strict comparison
z_scores > threshold of the source does not flag it and detect_anomalies
returns the empty list.  In float64 the computed z-score lands within one
ulp of 3.0 on either side depending on the summation order, so the
flagging of 100 is decided by rounding, not by the algorithm. -/
theorem detector_threshold_knife_edge :
    npVar [1, 1, 1, 1, 1, 1, 1, 1, 1, (100 : ℚ)] ≠ 0 ∧
    (100 - npMean [1, 1, 1, 1, 1, 1, 1, 1, 1, (100 : ℚ)]) ^ 2 =
      anomaly_threshold ^ 2 * npVar [1, 1, 1, 1, 1, 1, 1, 1, 1, (100 : ℚ)] ∧
    detect_anomalies dknife = some [] := by
  have hmean : npMean [1, 1, 1, 1, 1, 1, 1, 1, 1, (100 : ℚ)] = 109 / 10 := by
    norm_num [npMean]
  have hvar : npVar [1, 1, 1, 1, 1, 1, 1, 1, 1, (100 : ℚ)] = 88209 / 100 := by
    norm_num [npVar, npMean]
  refine ⟨by rw [hvar]; norm_num, by rw [hvar, hmean]; norm_num [anomaly_threshold], ?_⟩
  have h0 : detect_anomalies dknife =
      some (detect_on [1, 1, 1, 1, 1, 1, 1, 1, 1, (100 : ℚ)]) := rfl
  rw [h0]
  refine congrArg some ?_
  simp only [detect_on]
  rw [if_neg (by rw [hvar]; norm_num)]
  rw [List.map_eq_nil_iff, List.filter_eq_nil_iff]
  have henum : ([1, 1, 1, 1, 1, 1, 1, 1, 1, (100 : ℚ)]).enum =
      [(0, 1), (1, 1), (2, 1), (3, 1), (4, 1), (5, 1), (6, 1), (7, 1), (8, 1),
       (9, (100 : ℚ))] := rfl
  rw [henum]
  intro p hp
  fin_cases hp <;>
    simp only [decide_eq_true_eq] <;> rw [hvar, hmean] <;>
    norm_num [anomaly_threshold]

/-- C5, counterexample.  The claim says the anomaly scan over the amounts
[10, 20, 30, 5000, 15] flags 5000.  It does not: the five records carry no
value field, so after the five ingestion callbacks the detector history is
still empty, and even fed the five amounts directly the detector returns the
empty list — five samples are fewer than the ten it requires — flagging
nothing, in particular not 5000. -/
theorem c5_counterexample :
    detect_anomalies
      { value_history := [Val.num 10, Val.num 20, Val.num 30, Val.num 5000, Val.num 15] }
      = some [] ∧
    (List.foldl det_process_record initDetector purchase_batch).value_history = [] := by
  refine ⟨by decide, by decide⟩

/-- C5, amended: submitting the five purchase records to the engine queues
all of them; one aggregation cycle (batch size 100) drains the batch and
publishes active_users = 3 and purchases_last_interval = 5; and no anomaly
is flagged: the batch has no value column so anomalies_detected stays
unwritten, the detector history stays empty, and the detector applied
directly to the five amounts also returns the empty list (fewer than 10
samples). -/
theorem c5_batch_metrics_amended :
    (feed [] s5 purchase_batch).data_queue = purchase_batch ∧
    process_batch_data 100 purchase_batch initBatchMetrics =
      ([], { active_users := some 3, purchases_last_interval := some 5,
             anomalies_detected := none, records_processed := some 5 }) ∧
    detect_anomalies (List.foldl det_process_record initDetector purchase_batch)
      = some [] ∧
    detect_anomalies
      { value_history := [Val.num 10, Val.num 20, Val.num 30, Val.num 5000, Val.num 15] }
      = some [] := by
  refine ⟨by decide, by decide, by decide, by decide⟩

/-- Looking a key up right after writing it yields the written value. -/
theorem rt_lookup_insert (l : List (Int × ℚ)) (k : Int) (v : ℚ) :
    rt_lookup (rt_insert l k v) k = some v := by
  induction l with
  | nil => simp [rt_insert, rt_lookup]
  | cons p ps ih =>
    by_cases h : (p.1 == k) = true
    · simp [rt_insert, rt_lookup, h]
    · simp only [rt_insert, if_neg h]
      simpa [rt_lookup, List.find?_cons, h] using ih

/-- Creating a missing bucket with value 0 does not change the value read
with default 0. -/
theorem rt_lookup_or_init (l : List (Int × ℚ)) (k : Int) :
    (rt_lookup (rt_or_init l k) k).getD 0 = (rt_lookup l k).getD 0 := by
  unfold rt_or_init
  cases h : rt_lookup l k with
  | some c => simp [h]
  | none => simp [h, rt_lookup_insert]

/-- Summing the amounts after appending one numeric-amount entry. -/
theorem sum_amounts_append (e : PurchaseEntry) (a : ℚ) (he : toNum e.amount = some a) :
    ∀ (l : List PurchaseEntry) (s : ℚ), sum_amounts l = some s →
      sum_amounts (l ++ [e]) = some (s + a) := by
  intro l
  induction l with
  | nil =>
    intro s hs
    simp only [sum_amounts, Option.some.injEq] at hs
    subst hs
    simp [sum_amounts, he]
  | cons p ps ih =>
    intro s hs
    rcases h0 : toNum p.amount with _ | a0
    · simp [sum_amounts, h0] at hs
    · rcases h1 : sum_amounts ps with _ | s0
      · simp [sum_amounts, h0, h1] at hs
      · simp only [sum_amounts, h0, h1, Option.some.injEq] at hs
        have h2 := ih s0 h1
        simp only [List.cons_append, sum_amounts, h0]
        rw [show sum_amounts (ps.append [e]) = some (s0 + a) from h2, ← hs]
        exact congrArg some (by ring)

/-- get_revenue_stats after appending one purchase made right now with a
numeric amount: it is counted, its amount is added to the revenue, and the
average is recomputed accordingly. -/
theorem get_revenue_stats_snoc (t : PurchaseTracker) (rt2 : List (Int × ℚ))
    (now : Int) (e : PurchaseEntry) (a total : ℚ)
    (hts : e.timestamp = now) (ha : toNum e.amount = some a)
    (hsum : sum_amounts (get_recent_purchases t now 60) = some total) :
    get_revenue_stats
        { purchase_data := t.purchase_data ++ [e], revenue_tracker := rt2 } now =
      some { revenue_1hour := total + a,
             purchase_count_1hour := (get_recent_purchases t now 60).length + 1,
             avg_purchase_value :=
               (total + a) / ((get_recent_purchases t now 60).length + 1 : ℚ) } := by
  have hrec : get_recent_purchases
      { purchase_data := t.purchase_data ++ [e], revenue_tracker := rt2 } now 60 =
      get_recent_purchases t now 60 ++ [e] := by
    simp only [get_recent_purchases, List.filter_append]
    simp [hts]
  have hsum2 : sum_amounts (get_recent_purchases t now 60 ++ [e]) = some (total + a) :=
    sum_amounts_append e a ha (get_recent_purchases t now 60) total hsum
  simp [get_revenue_stats, hrec, hsum2, List.length_append, Nat.cast_add, Nat.cast_one]

/-- C10: a purchase record with no amount field is still recorded: the
entry appended to the purchase list carries amount 0 (the record.get
default), the revenue bucket of the current hour ends up holding its
previous value plus 0, the call raises nothing, and get_revenue_stats
counts the purchase while adding nothing to the revenue. -/
theorem c10_missing_amount_counts_zero (t : PurchaseTracker) (now : Int) (r : Record)
    (total : ℚ)
    (hev : record_get r "event_type" = some (Val.str "purchase"))
    (hamt : record_get r "amount" = none)
    (hsum : sum_amounts (get_recent_purchases t now 60) = some total) :
    (pt_process_record t now r).2 = false ∧
    (pt_process_record t now r).1.purchase_data =
      t.purchase_data ++
        [{ timestamp := now, user_id := record_get r "user_id", amount := Val.num 0,
           product_id := record_get r "product_id" }] ∧
    rt_lookup (pt_process_record t now r).1.revenue_tracker (hour_bucket now) =
      some ((rt_lookup t.revenue_tracker (hour_bucket now)).getD 0) ∧
    get_revenue_stats (pt_process_record t now r).1 now =
      some { revenue_1hour := total,
             purchase_count_1hour := (get_recent_purchases t now 60).length + 1,
             avg_purchase_value :=
               total / ((get_recent_purchases t now 60).length + 1 : ℚ) } := by
  have hb : (record_get r "event_type" == some (Val.str "purchase")) = true := by
    rw [hev]; exact beq_self_eq_true _
  have hmain : pt_process_record t now r =
      ({ purchase_data := t.purchase_data ++
           [{ timestamp := now, user_id := record_get r "user_id", amount := Val.num 0,
              product_id := record_get r "product_id" }],
         revenue_tracker :=
           rt_insert (rt_or_init t.revenue_tracker (hour_bucket now)) (hour_bucket now)
             ((rt_lookup (rt_or_init t.revenue_tracker (hour_bucket now))
                 (hour_bucket now)).getD 0 + 0) }, false) := by
    simp [pt_process_record, hb, hamt]
  refine ⟨by rw [hmain], by rw [hmain], ?_, ?_⟩
  · rw [hmain]
    show rt_lookup
        (rt_insert (rt_or_init t.revenue_tracker (hour_bucket now)) (hour_bucket now)
          ((rt_lookup (rt_or_init t.revenue_tracker (hour_bucket now))
              (hour_bucket now)).getD 0 + 0)) (hour_bucket now) =
      some ((rt_lookup t.revenue_tracker (hour_bucket now)).getD 0)
    rw [rt_lookup_insert, add_zero, rt_lookup_or_init]
  · rw [hmain]
    have hst := get_revenue_stats_snoc t
      (rt_insert (rt_or_init t.revenue_tracker (hour_bucket now)) (hour_bucket now)
        ((rt_lookup (rt_or_init t.revenue_tracker (hour_bucket now))
            (hour_bucket now)).getD 0 + 0))
      now
      { timestamp := now, user_id := record_get r "user_id", amount := Val.num 0,
        product_id := record_get r "product_id" }
      0 total rfl rfl hsum
    simpa using hst

/-- C10, witness: the theorem applied to the fresh tracker, time 7200 and
the amount-free purchase record rp. -/
theorem c10_missing_amount_counts_zero_witness :
    (pt_process_record initPurchaseTracker 7200 rp).2 = false ∧
    (pt_process_record initPurchaseTracker 7200 rp).1.purchase_data =
      initPurchaseTracker.purchase_data ++
        [{ timestamp := 7200, user_id := record_get rp "user_id", amount := Val.num 0,
           product_id := record_get rp "product_id" }] ∧
    rt_lookup (pt_process_record initPurchaseTracker 7200 rp).1.revenue_tracker
        (hour_bucket 7200) =
      some ((rt_lookup initPurchaseTracker.revenue_tracker (hour_bucket 7200)).getD 0) ∧
    get_revenue_stats (pt_process_record initPurchaseTracker 7200 rp).1 7200 =
      some { revenue_1hour := 0,
             purchase_count_1hour :=
               (get_recent_purchases initPurchaseTracker 7200 60).length + 1,
             avg_purchase_value :=
               0 / ((get_recent_purchases initPurchaseTracker 7200 60).length + 1 : ℚ) } :=
  c10_missing_amount_counts_zero initPurchaseTracker 7200 rp 0 rfl rfl rfl

end RealtimeAnalytics
